import Mathlib

/-!
Verification development for the meltfm web client.

We shallowly embed the client-side playback core:
  * `AudioManager` (src/web/src/lib/audio.ts) — never-stop audio playback
    with crossfade, looping and a fallback queue;
  * the `useRadio` hook (src/web/src/hooks/useRadio.ts) — WebSocket message
    handling into a `RadioState`;
  * `RadioSocket` (the auto-reconnecting WebSocket wrapper);
  * `ReactionInput` / `App` wiring for free-text reactions;
  * the `DevPanel` warning rendering.

JavaScript numbers that only carry media times and volumes are modelled as
rationals (ℚ); the success or failure of `HTMLMediaElement.play()` — an
environment effect — is passed in as an explicit boolean.
-/

namespace Meltfm

/-- One HTML audio element, as far as the client code observes it:
`src` (removed attribute = `none`), `volume`, `currentTime`, `duration`
(`0` while unknown, mirroring the `|| 0` guards) and `paused`. -/
structure AudioEl where
  src : Option String
  volume : ℚ
  currentTime : ℚ
  duration : ℚ
  paused : Bool
  deriving DecidableEq, Repr

/-- The mutable fields of `AudioManager` (audio.ts). `userVolume` is the
private `_volume` field (initial `0.8`). -/
structure AMState where
  audio : AudioEl
  fallbackQueue : List String
  nextTrackUrl : Option String
  userVolume : ℚ
  deriving DecidableEq, Repr

/-- Callbacks the `AudioManager` fires (the `AudioCallbacks` record). -/
inductive AMEvent where
  | onTimeUpdate (elapsed duration : ℚ)
  | onEnded
  | onError (err : String)
  deriving DecidableEq, Repr

/-- Models `this.fallbackQueue.push(url); if (this.fallbackQueue.length > 10)
this.fallbackQueue.shift();` — append, then evict the oldest entry when the
queue exceeds 10. -/
def pushEvict (q : List String) (url : String) : List String :=
  let q := q ++ [url]
  if q.length > 10 then q.drop 1 else q

/-- Embeds `playFallback()` (audio.ts lines 118–125): `Array.prototype.pop`
removes and returns the last (most recent) entry; a truthy check guards the
replay (`undefined` on an empty queue, and the empty string, are falsy).
`fbPlayOk` tells whether the element's `play()` succeeds; its rejection is
swallowed (`.catch(() => {})`). -/
def playFallback (fbPlayOk : Bool) (s : AMState) : AMState :=
  let prev := s.fallbackQueue.getLast?
  let s := { s with fallbackQueue := s.fallbackQueue.dropLast }
  match prev with
  | some p =>
      if p ≠ "" then
        { s with audio := { s.audio with
            src := some p
            volume := s.userVolume
            paused := !fbPlayOk } }
      else s
  | none => s

/-- Embeds `playTrack(url, seekTo?)` (audio.ts lines 50–62). Sets `src` and
`volume`, seeks when `seekTo` is truthy (absent or `0` skips), then awaits
`play()`: on success the url is appended to the fallback queue (bounded at
10) and on rejection `playFallback()` runs. `playOk` is the fate of this
element's `play()`, `fbPlayOk` that of a possible fallback replay. -/
def playTrack (playOk fbPlayOk : Bool) (url : String) (seekTo : Option ℚ)
    (s : AMState) : AMState :=
  let a := { s.audio with src := some url, volume := s.userVolume }
  let a := match seekTo with
    | some t => if t ≠ 0 then { a with currentTime := t } else a
    | none => a
  let s := { s with audio := a }
  if playOk then
    { s with
        audio := { s.audio with paused := false }
        fallbackQueue := pushEvict s.fallbackQueue url }
  else
    playFallback fbPlayOk s

/-- The `"ended"` listener (audio.ts lines 31–41): play the preset next
track when one was queued via `setNextTrack` (then clear it), otherwise
rewind to `0` and replay the current track; in both branches fire
`onEnded`. -/
def handleEnded (playOk fbPlayOk : Bool) (s : AMState) :
    AMState × List AMEvent :=
  let s' :=
    match s.nextTrackUrl with
    | some u => { playTrack playOk fbPlayOk u none s with nextTrackUrl := none }
    | none =>
        { s with audio := { s.audio with currentTime := 0, paused := !playOk } }
  (s', [AMEvent.onEnded])

/-- The `"error"` listener (audio.ts lines 43–47): fire `onError`, then
replay from the fallback queue. -/
def handleError (fbPlayOk : Bool) (s : AMState) : AMState × List AMEvent :=
  (playFallback fbPlayOk s, [AMEvent.onError "Audio load failed"])

/-- Embeds `setNextTrack(url)`. -/
def setNextTrack (url : String) (s : AMState) : AMState :=
  { s with nextTrackUrl := some url }

/-- The constant `CROSSFADE_MS` (audio.ts line 6). -/
def CROSSFADE_MS : ℚ := 500

/-- The fade-loop step count, `const steps = 20` in `crossfadeTo`. -/
def crossfadeSteps : ℕ := 20

/-- One iteration of the fade loop: the instant (ms after fade start) at
which the two volumes are assigned, and the assigned volumes. -/
structure FadeStep where
  time : ℚ
  oldVol : ℚ
  newVol : ℚ
  deriving DecidableEq, Repr

/-- The fade loop of `crossfadeTo` (audio.ts lines 77–88): for
`i = 0, …, steps`, set the outgoing volume to `(1 - i / steps) * baseVol`
and the incoming volume to `(i / steps) * baseVol`, then sleep
`CROSSFADE_MS / steps` ms; iteration `i`'s assignments happen at
`i * (CROSSFADE_MS / steps)` ms after the fade starts. -/
def fadeSchedule (baseVol : ℚ) : List FadeStep :=
  (List.range (crossfadeSteps + 1)).map fun (i : ℕ) =>
    { time := (i : ℚ) * (CROSSFADE_MS / (crossfadeSteps : ℚ))
      oldVol := (1 - (i : ℚ) / (crossfadeSteps : ℚ)) * baseVol
      newVol := ((i : ℚ) / (crossfadeSteps : ℚ)) * baseVol }

/-- How a `crossfadeTo` call resolved: a genuine fade with its volume
schedule, or the hard switch of the catch branch. -/
inductive CrossfadeResult where
  | faded (sched : List FadeStep)
  | hardSwitch
  deriving DecidableEq, Repr

/-- Embeds `crossfadeTo(nextUrl)` (audio.ts lines 64–112). A fresh element is
created for `nextUrl` at volume 0; if its `play()` rejects
(`nextPlayOk = false`) the method hard-switches via `playTrack` and
returns. Otherwise the 500 ms fade loop runs, the old element is paused
and stripped of its `src`, the new element (its volume now
`(steps/steps) * baseVol`) becomes `this.audio`, and `nextUrl` is appended
to the bounded fallback queue. `nextDur` is whatever duration the new
element reports once playing. -/
def crossfadeTo (nextPlayOk hardPlayOk fbPlayOk : Bool) (nextUrl : String)
    (nextDur : ℚ) (s : AMState) : AMState × CrossfadeResult :=
  if nextPlayOk then
    let nextEl : AudioEl :=
      { src := some nextUrl
        volume := ((crossfadeSteps : ℚ) / (crossfadeSteps : ℚ)) * s.userVolume
        currentTime := 0
        duration := nextDur
        paused := false }
    ({ s with
         audio := nextEl
         fallbackQueue := pushEvict s.fallbackQueue nextUrl },
     CrossfadeResult.faded (fadeSchedule s.userVolume))
  else
    (playTrack hardPlayOk fbPlayOk nextUrl none s, CrossfadeResult.hardSwitch)

/-- Embeds `pause()`. -/
def amPause (s : AMState) : AMState :=
  { s with audio := { s.audio with paused := true } }

/-- Embeds `resume()` — a `play()` with swallowed rejection. -/
def amResume (playOk : Bool) (s : AMState) : AMState :=
  if playOk then { s with audio := { s.audio with paused := false } } else s

/-- The `volume` setter: stores `_volume` and pushes it to the element. -/
def setVolume (v : ℚ) (s : AMState) : AMState :=
  { s with userVolume := v, audio := { s.audio with volume := v } }

/-- Embeds `get hasSource` — the element has a real `src` (after
`removeAttribute("src")` the embedded `src` is `none`; the
`location.href` comparison in the source exists because an empty `src`
attribute reads back as the page url). -/
def hasSource (s : AMState) : Bool :=
  s.audio.src.isSome

/-! ### JSON-ish values and JavaScript string trimming -/

/-- Untyped JSON-like values, for the loosely-typed message payloads the
hook stores (`Record<string, unknown>`). -/
inductive JVal where
  | str (v : String)
  | num (v : ℚ)
  | bool (v : Bool)
  | null
  | arr (vs : List JVal)
  | obj (fs : List (String × JVal))

/-- JavaScript whitespace, as far as the client's inputs use it (the
common ASCII whitespace characters recognised by `String.prototype.trim`). -/
def isJsWs (c : Char) : Bool :=
  c = ' ' || c = '\t' || c = '\n' || c = '\r' || c = '\x0b' || c = '\x0c'

/-- Models `String.prototype.trim`: strip leading and trailing whitespace. -/
def jsTrim (s : String) : String :=
  String.mk (((s.toList.dropWhile isJsWs).reverse.dropWhile isJsWs).reverse)

/-! ### The `useRadio` client state (useRadio.ts) -/

/-- The `NowPlaying` record of useRadio.ts (plus the `lyrics` field the App
reads). `audio_url` is a string whose truthiness the hook tests. -/
structure NowPlayingT where
  id : String
  tags : String
  bpm : Option ℚ
  key_scale : Option String
  time_signature : Option ℚ
  instrumental : Bool
  rationale : String
  audio_url : String
  duration : Option ℚ
  radio : String
  lyrics : Option String

/-- The `PipelineStage` union — which phase of the generation pipeline is active. -/
inductive PipelineStage where
  | idle | waiting | thinking | generating | ready | error
  deriving DecidableEq, Repr

/-- The `PipelineState` record of useRadio.ts. -/
structure PipelineState where
  stage : PipelineStage
  llmDone : Bool
  warnings : List String
  lastError : Option String
  deriving DecidableEq, Repr

/-- Event-log severity. -/
inductive EvLevel where
  | info | warn | error
  deriving DecidableEq, Repr

/-- The `EventEntry` record of useRadio.ts. -/
structure EventEntry where
  id : ℕ
  ts : ℕ
  type : String
  summary : String
  level : EvLevel
  payload : Option (List (String × JVal))
  deltaMs : Option ℤ

/-- The `RadioState` record of useRadio.ts — the client's whole UI state record. -/
structure RadioState where
  connected : Bool
  radioName : String
  isFirstRun : Bool
  nowPlaying : Option NowPlayingT
  isPlaying : Bool
  elapsed : ℚ
  duration : ℚ
  volume : ℚ
  generating : Bool
  queueReady : Bool
  generationElapsed : ℚ
  generationParams : Option (List (String × JVal))
  error : Option String
  pipeline : PipelineState
  events : List EventEntry
  llmDurationMs : Option ℤ
  aceDurationMs : Option ℤ

/-- The mutable refs of the hook (`nowPlayingRef`, `serverElapsedRef`,
`eventIdRef`, `nowPlayingAfterGenStart`, `lastEventTsRef`,
`thinkingStartRef`, `genStartRef`, `lastProgressMilestoneRef`,
`started`). -/
structure RadioRefs where
  nowPlayingRef : Option NowPlayingT
  serverElapsed : ℚ
  eventId : ℕ
  nowPlayingAfterGenStart : Bool
  lastEventTs : Option ℕ
  thinkingStart : Option ℕ
  genStart : Option ℕ
  lastProgressMilestone : ℤ
  started : Bool

/-- The `playback` sub-object of a `sync` snapshot; either field may be
absent. -/
structure PlaybackInfo where
  elapsed : Option ℚ
  volume : Option ℚ

/-- A `warnings` field as received on the wire: absent, present but not an
array, or an array of strings (`Array.isArray` is the code's test). -/
inductive WireWarnings where
  | absent
  | notArray
  | arr (ws : List String)

/-- Models `Array.isArray(msg.data.warnings) ? msg.data.warnings : []`. -/
def WireWarnings.toList : WireWarnings → List String
  | .arr ws => ws
  | _ => []

/-- The server→client messages the hook's `switch` handles, carrying
exactly the payload fields the code reads. -/
inductive ServerMsg where
  | sync (radio_name : String) (is_first_run : Bool)
         (now_playing : Option NowPlayingT) (playback : Option PlaybackInfo)
         (generating : Bool)
  | now_playing (np : NowPlayingT)
  | playback_state (volume : Option ℚ)
  | tick (elapsed : ℚ)
  | thinking
  | generation_start (params : Option (List (String × JVal)))
                     (warnings : WireWarnings)
  | generation_progress (elapsed : Option ℚ)
  | generation_done
  | regenerating (reason : String)
  | toast (message : String)
  | error (message : String)
  | radio_switched (name : String) (is_new : Bool)
  | first_run
  | reaction_feedback (signal : String)
  | disk_full (free_mb : ℚ)
  | sleep_expired
  | waiting (message : Option String)

/-- Imperative side effects a message handler performs besides updating
`RadioState` and the refs: calls into the `AudioManager`, toasts, media
session setup, socket sends, and delayed actions (`setTimeout`). -/
inductive HandlerEffect where
  | audioPlayTrack (url : String) (seekTo : ℚ)
  | audioPlayTrackNoSeek (url : String)
  | audioCrossfade (url : String)
  | audioPause
  | toastMsg (m : String)
  | setupMedia (title artist : String)
  | sendCmd (type : String)
  | delayedClearError (ms : ℕ)
  | delayedSendCmd (type : String) (ms : ℕ)

/-- A recogniser for send effects (also catching delayed sends), used
to state that a handler transmits no command of a given type. -/
def HandlerEffect.isSendOf (t : String) : HandlerEffect → Bool
  | .sendCmd u => u = t
  | .delayedSendCmd u _ => u = t
  | _ => false

/-- JavaScript `a || b` on strings: `a` when truthy (non-empty), else `b`. -/
def truthyStr (a dflt : String) : String :=
  if a ≠ "" then a else dflt

/-- Field lookup in a JS-object-as-association-list. -/
def jlookup (fs : List (String × JVal)) (k : String) : Option JVal :=
  (fs.find? (fun f => f.1 = k)).map (fun f => f.2)

/-- Embeds `mkEvent` of useRadio.ts: stamps the entry with `Date.now()`, the next
event id, and the time since the previous event; advances `eventIdRef` and
`lastEventTsRef`. -/
def mkEvent (now : ℕ) (r : RadioRefs) (type summary : String)
    (level : EvLevel) (payload : Option (List (String × JVal))) :
    EventEntry × RadioRefs :=
  ({ id := r.eventId + 1
     ts := now
     type := type
     summary := summary
     level := level
     payload := payload
     deltaMs := r.lastEventTs.map (fun t => (now : ℤ) - (t : ℤ)) },
   { r with eventId := r.eventId + 1, lastEventTs := some now })

/-- Embeds `pushEvent` / the inline `events: [e, ...s.events].slice(0, 60)`. -/
def pushEv (e : EventEntry) (s : RadioState) : RadioState :=
  { s with events := (e :: s.events).take 60 }

/-- Models `msg.data.playback?.elapsed || 0`. -/
def pbElapsed (pb : Option PlaybackInfo) : ℚ :=
  ((pb.bind PlaybackInfo.elapsed).getD 0)

/-- The hook's `onTimeUpdate` audio callback (useRadio.ts line 107): the
only place that writes the `elapsed` and `duration` fields. -/
def radioOnTimeUpdate (elapsed duration : ℚ) (s : RadioState) : RadioState :=
  { s with elapsed := elapsed, duration := duration }

/-- The command/toast effects of the hook's audio callbacks (useRadio.ts
lines 109–113): `onEnded` sends `track_ended`; `onError` toasts and sends
`skip` after a 3 s delay. -/
def radioAudioEffects : AMEvent → List HandlerEffect
  | .onTimeUpdate _ _ => []
  | .onEnded => [.sendCmd "track_ended"]
  | .onError _ =>
      [.toastMsg "Track unavailable — skipping...", .delayedSendCmd "skip" 3000]

/-- Embeds `setupMedia` (useRadio.ts lines 120–128) reduced to the metadata it
installs; `||` defaults mirror JS truthiness (`bpm` of `0` and empty
strings fall back to the placeholders). -/
def setupMediaEffect (np : NowPlayingT) : HandlerEffect :=
  .setupMedia (truthyStr np.tags "Personal Radio")
    ((match np.bpm with
      | some b => if b ≠ 0 then toString b else "?"
      | none => "?") ++ " BPM - " ++ (truthyStr (np.key_scale.getD "") "?"))

/-- The `switch (msg.type)` body of the hook's `onMessage` (useRadio.ts
lines 155–405), as a function of the message, the current wall clock
(`Date.now()`), the `AudioManager` state (read by the `now_playing` case),
the refs and the `RadioState`.  Returns the new state, the new refs, and
the imperative effects performed. -/
def handleMessage (msg : ServerMsg) (now : ℕ) (am : AMState)
    (r : RadioRefs) (s : RadioState) :
    RadioState × RadioRefs × List HandlerEffect :=
  match msg with
  | .sync radio_name is_first_run np pb g =>
      let r := { r with nowPlayingRef := np, serverElapsed := pbElapsed pb }
      let s := { s with
        radioName := radio_name
        isFirstRun := is_first_run
        nowPlaying := np
        volume := (pb.bind PlaybackInfo.volume).getD s.volume
        generating := g }
      let fx :=
        match np with
        | some n =>
            if n.audio_url ≠ "" && r.started then
              [HandlerEffect.audioPlayTrack n.audio_url (pbElapsed pb)]
            else []
        | none => []
      (s, r, fx)
  | .now_playing np =>
      let tag0 :=
        match (np.tags.splitOn ",").head? with
        | some t => jsTrim t
        | none => "track"
      let summary :=
        "▶ " ++ tag0 ++
          (match np.bpm with
           | some b => if b ≠ 0 then " · " ++ toString b ++ " BPM" else ""
           | none => "")
      let payload : List (String × JVal) :=
        [("id", .str np.id), ("tags", .str np.tags),
         ("bpm", match np.bpm with | some b => .num b | none => .null),
         ("key_scale",
          match np.key_scale with | some k => .str k | none => .null),
         ("instrumental", .bool np.instrumental),
         ("rationale", .str np.rationale)]
      let (evt, r) := mkEvent now r "now_playing" summary .info (some payload)
      let r := { r with nowPlayingRef := some np, nowPlayingAfterGenStart := true }
      let s := pushEv evt { s with
        nowPlaying := some np
        queueReady := false
        generationParams := none
        pipeline := { s.pipeline with stage := .idle, llmDone := false } }
      let fx :=
        if r.started && np.audio_url ≠ "" then
          (if hasSource am && !am.audio.paused then
             [HandlerEffect.audioCrossfade np.audio_url]
           else
             [HandlerEffect.audioPlayTrackNoSeek np.audio_url]) ++
          [setupMediaEffect np]
        else []
      (s, r, fx)
  | .playback_state v =>
      ({ s with volume := v.getD s.volume }, r, [])
  | .tick e =>
      (s, { r with serverElapsed := e }, [])
  | .thinking =>
      let r := { r with thinkingStart := some now }
      let (evt, r) := mkEvent now r "thinking" "LLM thinking…" .info none
      (pushEv evt { s with
         generating := true
         generationElapsed := 0
         pipeline := ⟨.thinking, false, [], none⟩ }, r, [])
  | .generation_start p w =>
      let tag0 :=
        match p.bind (fun fs => jlookup fs "tags") with
        | some (.str t) =>
            match (t.splitOn ",").head? with
            | some t0 => jsTrim t0
            | none => "?"
        | _ => "?"
      let bpmStr :=
        match p.bind (fun fs => jlookup fs "bpm") with
        | some (.num b) => toString b ++ " BPM"
        | _ => ""
      let warnings := w.toList
      let level : EvLevel := if warnings.length > 0 then .warn else .info
      let llmDur : Option ℤ :=
        r.thinkingStart.map (fun t => (now : ℤ) - (t : ℤ))
      let r := { r with genStart := some now, lastProgressMilestone := 0 }
      let summary :=
        "ACE-Step: " ++ tag0 ++ (if bpmStr ≠ "" then " · " ++ bpmStr else "")
      let payload : List (String × JVal) :=
        [("params", match p with | some fs => .obj fs | none => .null),
         ("warnings", .arr (warnings.map JVal.str))]
      let (evt, r) := mkEvent now r "generation_start" summary level (some payload)
      let r := { r with nowPlayingAfterGenStart := false }
      (pushEv evt { s with
         generating := true
         queueReady := false
         generationElapsed := 0
         generationParams := p
         pipeline := ⟨.generating, true, warnings, none⟩
         llmDurationMs := llmDur.orElse (fun _ => s.llmDurationMs) }, r, [])
  | .generation_progress e =>
      let elapsed := e.getD 0
      let milestone : ℤ := ⌊elapsed / 15⌋ * 15
      if milestone > 0 && milestone > r.lastProgressMilestone then
        let r := { r with lastProgressMilestone := milestone }
        let (evt, r) := mkEvent now r "generation_progress"
          ("ACE-Step: " ++ toString milestone ++ "s elapsed") .info
          (some [("elapsed", .num elapsed)])
        (pushEv evt { s with generationElapsed := elapsed }, r, [])
      else
        ({ s with generationElapsed := elapsed }, r, [])
  | .generation_done =>
      let isQueued := !r.nowPlayingAfterGenStart
      let aceDur : Option ℤ := r.genStart.map (fun t => (now : ℤ) - (t : ℤ))
      let (evt, r) := mkEvent now r "generation_done"
        (if isQueued then "Track queued — ready to play" else "Track ready")
        .info (some [("queued", .bool isQueued)])
      (pushEv evt { s with
         generating := false
         queueReady := isQueued
         generationElapsed := 0
         generationParams := if isQueued then s.generationParams else none
         pipeline := { s.pipeline with
           stage := if isQueued then .ready else .idle }
         aceDurationMs := aceDur.orElse (fun _ => s.aceDurationMs) }, r, [])
  | .regenerating reason =>
      let (evt, r) := mkEvent now r "regenerating"
        ("Regenerating: \"" ++ reason ++ "\"") .warn
        (some [("reason", .str reason)])
      let r := { r with nowPlayingAfterGenStart := false }
      (pushEv evt { s with
         generating := true
         queueReady := false
         generationElapsed := 0
         generationParams := none
         pipeline := ⟨.thinking, false, [], none⟩ }, r,
       [.toastMsg "Got it — regenerating..."])
  | .toast m =>
      (s, r, [.toastMsg m])
  | .error m =>
      let (evt, r) := mkEvent now r "error" m .error
        (some [("message", .str m)])
      (pushEv evt { s with
         error := some m
         pipeline := { s.pipeline with stage := .error, lastError := some m } },
       r, [.delayedClearError 5000])
  | .radio_switched name is_new =>
      let (evt, r) := mkEvent now r "radio_switched"
        ("Switched to: " ++ name) .info none
      let r := { r with nowPlayingAfterGenStart := false }
      (pushEv evt { s with
         radioName := name
         isFirstRun := is_new
         nowPlaying := none
         generating := false
         queueReady := false
         generationParams := none
         pipeline := ⟨.idle, false, [], none⟩ }, r, [])
  | .first_run =>
      ({ s with isFirstRun := true }, r, [])
  | .reaction_feedback sig =>
      if sig = "liked" then
        let (evt, r) := mkEvent now r "reaction_feedback" "♥ Liked" .info none
        (pushEv evt s, r, [.toastMsg "Liked!"])
      else if sig = "disliked" then
        let (evt, r) := mkEvent now r "reaction_feedback" "✕ Disliked" .warn none
        (pushEv evt s, r, [.toastMsg "Disliked — changing direction..."])
      else if sig = "skipped" then
        let (evt, r) := mkEvent now r "reaction_feedback" "» Skipped" .info none
        (pushEv evt s, r, [.toastMsg "Skipped"])
      else
        (s, r, [])
  | .disk_full free_mb =>
      let (evt, r) := mkEvent now r "disk_full"
        ("Disk full (" ++ toString free_mb ++ "MB free)") .error
        (some [("free_mb", .num free_mb)])
      (pushEv evt s, r,
       [.toastMsg ("Storage full (" ++ toString free_mb ++ "MB left)")])
  | .sleep_expired =>
      (s, r, [.audioPause, .toastMsg "Sleep timer expired"])
  | .waiting m =>
      let waitMsg := truthyStr (m.getD "") "Waiting…"
      ({ s with
         generating := true
         pipeline := ⟨.waiting, false, [], some waitMsg⟩ }, r, [])

/-! ### `RadioSocket` — the auto-reconnecting WebSocket wrapper (ws.ts) -/

/-- The `WebSocket.readyState` values. -/
inductive WsReady where
  | CONNECTING | OPEN | CLOSING | CLOSED
  deriving DecidableEq, Repr

/-- The piece of the underlying `WebSocket` the wrapper reads. -/
structure WsHandle where
  readyState : WsReady
  deriving DecidableEq, Repr

/-- The mutable fields of `RadioSocket`: `ws` (null before `connect`),
`reconnectDelay` (initially 1000) and `closed`. -/
structure RSState where
  ws : Option WsHandle
  reconnectDelay : ℕ
  closed : Bool
  deriving DecidableEq, Repr

/-- The field `private maxDelay = 10000` — the reconnect-delay cap, never mutated. -/
def rsMaxDelay : ℕ := 10000

/-- Observable actions of the socket wrapper. -/
inductive SocketEffect where
  | cbOnOpen
  | cbOnClose
  | scheduleReconnect (delayMs : ℕ)
  | transmit (wire : List (String × JVal))

/-- The `onopen` handler (ws.ts lines 37–40): reset the reconnect delay to
1000 ms and invoke the open callback. Nothing is transmitted. -/
def handleWsOpen (s : RSState) : RSState × List SocketEffect :=
  ({ s with reconnectDelay := 1000 }, [.cbOnOpen])

/-- The `onclose` handler (ws.ts lines 51–57): invoke the close callback;
then, unless `close()` was called, schedule `connect()` after the current
delay and double the delay up to `maxDelay`. -/
def handleWsClose (s : RSState) : RSState × List SocketEffect :=
  if !s.closed then
    ({ s with reconnectDelay := min (s.reconnectDelay * 2) rsMaxDelay },
     [.cbOnClose, .scheduleReconnect s.reconnectDelay])
  else
    (s, [.cbOnClose])

/-- Embeds `send(type, data)` (ws.ts lines 64–68): transmit
`JSON.stringify({ type, ...data })` when the socket exists and is `OPEN`;
otherwise do nothing at all (no queue, no error). Returns the transmitted
wire object, `none` when the command is discarded. -/
def rsSend (s : RSState) (type : String) (data : List (String × JVal)) :
    Option (List (String × JVal)) :=
  match s.ws with
  | some w =>
      if w.readyState = WsReady.OPEN then some (("type", JVal.str type) :: data)
      else none
  | none => none

/-- Embeds `close()` (ws.ts lines 70–73). -/
def rsClose (s : RSState) : RSState :=
  { s with closed := true }

/-! ### `ReactionInput` and its `App` wiring -/

/-- A client command as assembled by `App` (`send("reaction", { text })`). -/
structure ClientCmd where
  type : String
  text : String
  deriving DecidableEq, Repr

/-- Embeds `handleSubmit` of ReactionInput.tsx (lines 13–20): trim the field; call
`onSubmit(trimmed)` only when the trimmed text is non-empty. Returns the
text handed to `onSubmit`, `none` when nothing is forwarded. -/
def reactionHandleSubmit (text : String) : Option String :=
  let trimmed := jsTrim text
  if trimmed ≠ "" then some trimmed else none

/-- The App wiring (App.tsx line 120):
`<ReactionInput onSubmit={(text) => send("reaction", { text })} />` —
the command the client issues for a submitted input, if any. -/
def appReactionSubmit (text : String) : Option ClientCmd :=
  (reactionHandleSubmit text).map (fun t => { type := "reaction", text := t })

/-! ### `DevPanel` warning rendering -/

/-- The DevPanel warning line (DevPanel, lines 210–214): rendered exactly
when `pipeline.warnings.length > 0`, as `⚠` plus the warnings joined with
`"; "`. -/
def devPanelWarnings (p : PipelineState) : Option String :=
  if p.warnings.length > 0 then
    some ("⚠ " ++ String.intercalate "; " p.warnings)
  else none

/-! ### Initial states (for concrete witnesses) -/

/-- A freshly constructed `HTMLAudioElement`. -/
def freshAudioEl : AudioEl :=
  { src := none, volume := 1, currentTime := 0, duration := 0, paused := true }

/-- The `AudioManager` construction state: empty fallback queue, no preset
next track, `_volume = 0.8`. -/
def initialAMState : AMState :=
  { audio := freshAudioEl, fallbackQueue := [], nextTrackUrl := none
    userVolume := 8/10 }

/-- The hook's `useState` initial `RadioState`. -/
def initialRadioState : RadioState :=
  { connected := false
    radioName := "default"
    isFirstRun := true
    nowPlaying := none
    isPlaying := false
    elapsed := 0
    duration := 0
    volume := 80
    generating := false
    queueReady := false
    generationElapsed := 0
    generationParams := none
    error := none
    pipeline := ⟨.idle, false, [], none⟩
    events := []
    llmDurationMs := none
    aceDurationMs := none }

/-- The hook's initial refs. -/
def initialRefs : RadioRefs :=
  { nowPlayingRef := none
    serverElapsed := 0
    eventId := 0
    nowPlayingAfterGenStart := false
    lastEventTs := none
    thinkingStart := none
    genStart := none
    lastProgressMilestone := 0
    started := false }

/-- A `RadioSocket` right after its constructor ran `connect()`. -/
def initialRSState : RSState :=
  { ws := some ⟨WsReady.CONNECTING⟩, reconnectDelay := 1000, closed := false }

/-! ## Theorems -/

/-- C9: `RadioSocket.send` transmits the command exactly when the
underlying WebSocket exists and its `readyState` is `OPEN`; otherwise the
command is silently discarded — the wrapper keeps no queue and raises
nothing, so commands issued while disconnected are lost. -/
theorem rsSend_open_iff (s : RSState) (t : String)
    (d : List (String × JVal)) :
    ((rsSend s t d).isSome ↔
       ∃ w, s.ws = some w ∧ w.readyState = WsReady.OPEN) ∧
    (∀ m, rsSend s t d = some m → m = ("type", JVal.str t) :: d) := by
  constructor
  · constructor
    · intro h
      match hw : s.ws with
      | some w =>
          refine ⟨w, rfl, ?_⟩
          by_contra hne
          simp [rsSend, hw, hne] at h
      | none => simp [rsSend, hw] at h
    · rintro ⟨w, hw, hopen⟩
      simp [rsSend, hw, hopen]
  · intro m hm
    cases hws : s.ws with
    | none => simp [rsSend, hws] at hm
    | some w =>
        cases hr : w.readyState <;> simp [rsSend, hws, hr] at hm
        exact hm.symm

/-- C9 witness: on a socket in `OPEN` state the command goes out; on the
freshly-connecting socket it is discarded. -/
theorem rsSend_open_iff_witness :
    (rsSend ⟨some ⟨WsReady.OPEN⟩, 1000, false⟩ "skip" []).isSome ∧
    rsSend initialRSState "skip" [] = none := by
  constructor
  · exact (rsSend_open_iff ⟨some ⟨WsReady.OPEN⟩, 1000, false⟩ "skip" []).1.mpr
      ⟨⟨WsReady.OPEN⟩, rfl, rfl⟩
  · rfl

/-- C7 counterexample: a whitespace-only submission is silently dropped
(nothing is forwarded), and an input with surrounding whitespace is
forwarded trimmed, not verbatim — so the claim as stated is false. -/
theorem reaction_not_verbatim :
    appReactionSubmit " " = none ∧
    appReactionSubmit " hi " = some { type := "reaction", text := "hi" } ∧
    "hi" ≠ " hi " := by
  refine ⟨rfl, rfl, by decide⟩

/-- C7 (amended): every submitted input whose trimmed form is non-empty is
forwarded as a `reaction` command carrying the trimmed text; an input that
trims to the empty string (whitespace-only) is silently discarded. -/
theorem reaction_forwarded_trimmed (t : String) :
    (jsTrim t ≠ "" →
       appReactionSubmit t = some { type := "reaction", text := jsTrim t }) ∧
    (jsTrim t = "" → appReactionSubmit t = none) := by
  constructor <;> intro h <;>
    simp [appReactionSubmit, reactionHandleSubmit, h]

/-- C7 witness: the amended statement at the concrete inputs `"  hi  "`
(forwarded trimmed) and `" "` (discarded). -/
theorem reaction_forwarded_trimmed_witness :
    appReactionSubmit "  hi  " = some { type := "reaction", text := "hi" } ∧
    appReactionSubmit " " = none := by
  constructor
  · have h := (reaction_forwarded_trimmed "  hi  ").1 (by decide)
    rw [h]; decide
  · exact (reaction_forwarded_trimmed " ").2 (by decide)

/-- C8: processing `radio_switched` in one step installs the new radio's
name and first-run flag, resets `nowPlaying`, `generating`, `queueReady`
and `generationParams`, puts the pipeline back to the idle stage with no
warnings and no error, and leaves the connection flag, volume and the
local elapsed/duration untouched. -/
theorem radio_switched_atomic (name : String) (is_new : Bool) (now : ℕ)
    (am : AMState) (r : RadioRefs) (s : RadioState) :
    ((handleMessage (.radio_switched name is_new) now am r s).1.radioName
        = name) ∧
    ((handleMessage (.radio_switched name is_new) now am r s).1.isFirstRun
        = is_new) ∧
    ((handleMessage (.radio_switched name is_new) now am r s).1.nowPlaying
        = none) ∧
    ((handleMessage (.radio_switched name is_new) now am r s).1.generating
        = false) ∧
    ((handleMessage (.radio_switched name is_new) now am r s).1.queueReady
        = false) ∧
    ((handleMessage (.radio_switched name is_new) now am r s).1.generationParams
        = none) ∧
    ((handleMessage (.radio_switched name is_new) now am r s).1.pipeline
        = ⟨.idle, false, [], none⟩) ∧
    ((handleMessage (.radio_switched name is_new) now am r s).1.connected
        = s.connected) ∧
    ((handleMessage (.radio_switched name is_new) now am r s).1.volume
        = s.volume) ∧
    ((handleMessage (.radio_switched name is_new) now am r s).1.elapsed
        = s.elapsed) ∧
    ((handleMessage (.radio_switched name is_new) now am r s).1.duration
        = s.duration) := by
  simp [handleMessage, pushEv, mkEvent]

/-- C4: local playback position is authoritative for the UI. A `tick`
message leaves the whole `RadioState` unchanged (only `serverElapsedRef`
moves); a `playback_state` message is exactly a volume update; no server
message whatsoever writes the `elapsed` or `duration` fields — only the
audio element's `timeupdate` callback does. -/
theorem local_playback_authoritative :
    (∀ msg now am r s,
       ((handleMessage msg now am r s).1.elapsed = s.elapsed ∧
        (handleMessage msg now am r s).1.duration = s.duration)) ∧
    (∀ e now am r s, handleMessage (.tick e) now am r s =
       (s, { r with serverElapsed := e }, [])) ∧
    (∀ v now am r s, handleMessage (.playback_state v) now am r s =
       ({ s with volume := v.getD s.volume }, r, [])) ∧
    (∀ e d s, radioOnTimeUpdate e d s =
       { s with elapsed := e, duration := d }) := by
  refine ⟨?_, fun _ _ _ _ _ => rfl, fun _ _ _ _ _ => rfl, fun _ _ _ => rfl⟩
  intro msg now am r s
  cases msg <;>
    simp [handleMessage, pushEv, mkEvent] <;>
    (repeat' split) <;> simp

/-- C6: `generation_start` stores the message's warnings into
`pipeline.warnings` (the empty list when the field is absent or not an
array), moves the pipeline to `generating` with `llmDone = true`, and logs
an event whose level is `warn` exactly when the warnings list is
non-empty; the DevPanel renders a warning line exactly when
`pipeline.warnings` is non-empty. -/
theorem generation_start_surfaces_warnings
    (p : Option (List (String × JVal))) (w : WireWarnings) (now : ℕ)
    (am : AMState) (r : RadioRefs) (s : RadioState) :
    ((handleMessage (.generation_start p w) now am r s).1.pipeline.warnings
        = w.toList) ∧
    ((w = .absent ∨ w = .notArray) →
       (handleMessage (.generation_start p w) now am r s).1.pipeline.warnings
         = []) ∧
    ((handleMessage (.generation_start p w) now am r s).1.pipeline.stage
        = .generating) ∧
    ((handleMessage (.generation_start p w) now am r s).1.pipeline.llmDone
        = true) ∧
    ((handleMessage (.generation_start p w) now am r s).1.pipeline.lastError
        = none) ∧
    (∀ e, (handleMessage (.generation_start p w) now am r s).1.events.head?
            = some e → (e.level = .warn ↔ w.toList ≠ [])) ∧
    (∀ st : RadioState,
       ((devPanelWarnings st.pipeline).isSome ↔ st.pipeline.warnings ≠ [])) := by
  refine ⟨?_, ?_, ?_, ?_, ?_, ?_, ?_⟩
  · simp [handleMessage, pushEv, mkEvent]
  · rintro (rfl | rfl) <;> simp [handleMessage, pushEv, mkEvent, WireWarnings.toList]
  · simp [handleMessage, pushEv, mkEvent]
  · simp [handleMessage, pushEv, mkEvent]
  · simp [handleMessage, pushEv, mkEvent]
  · intro e he
    simp [handleMessage, pushEv, mkEvent] at he
    subst he
    cases h : w.toList with
    | nil => simp [h]
    | cons a l => simp [h]
  · intro st
    rcases h : st.pipeline.warnings with _ | ⟨a, l⟩ <;>
      simp [devPanelWarnings, h]

/-- C6 witness: a `generation_start` carrying one warning yields a `warn`
event with `["llm retry"]` surfaced in the pipeline, and an absent
warnings field yields the empty list. -/
theorem generation_start_surfaces_warnings_witness :
    ((handleMessage (.generation_start none (.arr ["llm retry"])) 5
        initialAMState initialRefs initialRadioState).1.pipeline.warnings
      = ["llm retry"]) ∧
    ((handleMessage (.generation_start none .absent) 5
        initialAMState initialRefs initialRadioState).1.pipeline.warnings
      = []) ∧
    (∀ e, (handleMessage (.generation_start none (.arr ["llm retry"])) 5
             initialAMState initialRefs initialRadioState).1.events.head?
           = some e → e.level = .warn) := by
  refine ⟨?_, ?_, ?_⟩
  · exact (generation_start_surfaces_warnings none (.arr ["llm retry"]) 5
      initialAMState initialRefs initialRadioState).1
  · exact (generation_start_surfaces_warnings none .absent 5
      initialAMState initialRefs initialRadioState).2.1 (Or.inl rfl)
  · intro e he
    exact ((generation_start_surfaces_warnings none (.arr ["llm retry"]) 5
      initialAMState initialRefs initialRadioState).2.2.2.2.2.1 e he).mpr
      (by decide)

/-- C1: on every `ended` event the listener is not left in silence: the
`onEnded` callback fires unconditionally (and the hook's `onEnded` sends a
`track_ended` command); when a next track was preset via `setNextTrack`
and its `play()` succeeds, that url starts playing and the preset is
cleared; when no next track is preset, the current track is rewound to
position 0 and replayed. -/
theorem ended_never_silent (playOk fbPlayOk : Bool) (s : AMState) :
    ((handleEnded playOk fbPlayOk s).2 = [AMEvent.onEnded]) ∧
    (HandlerEffect.sendCmd "track_ended" ∈ radioAudioEffects AMEvent.onEnded) ∧
    (∀ u, s.nextTrackUrl = some u → playOk = true →
       ((handleEnded playOk fbPlayOk s).1.audio.src = some u ∧
        (handleEnded playOk fbPlayOk s).1.audio.paused = false ∧
        (handleEnded playOk fbPlayOk s).1.nextTrackUrl = none)) ∧
    (s.nextTrackUrl = none →
       ((handleEnded playOk fbPlayOk s).1.audio.src = s.audio.src ∧
        (handleEnded playOk fbPlayOk s).1.audio.currentTime = 0 ∧
        (playOk = true → (handleEnded playOk fbPlayOk s).1.audio.paused = false))) := by
  refine ⟨?_, ?_, ?_, ?_⟩
  · cases h : s.nextTrackUrl <;> simp [handleEnded, h]
  · simp [radioAudioEffects]
  · rintro u hu rfl
    simp [handleEnded, hu, playTrack, pushEvict]
  · intro h
    simp [handleEnded, h]

/-- C1 witness: with `"next.mp3"` preset and a succeeding `play()`, the
ended handler starts `"next.mp3"` and fires `onEnded`; with nothing preset
it rewinds to 0. -/
theorem ended_never_silent_witness :
    (let s1 : AMState := { initialAMState with nextTrackUrl := some "next.mp3" }
     (handleEnded true true s1).1.audio.src = some "next.mp3" ∧
     (handleEnded true true s1).2 = [AMEvent.onEnded]) ∧
    ((handleEnded true true initialAMState).1.audio.currentTime = 0) := by
  refine ⟨⟨?_, ?_⟩, ?_⟩
  · exact ((ended_never_silent true true
      { initialAMState with nextTrackUrl := some "next.mp3" }).2.2.1
        "next.mp3" rfl rfl).1
  · exact (ended_never_silent true true
      { initialAMState with nextTrackUrl := some "next.mp3" }).1
  · exact ((ended_never_silent true true initialAMState).2.2.2 rfl).2.1

/-- C2: on an asset error (the `error` event, or a rejected `play()` inside
`playTrack`) the manager replays the most recent fallback entry rather
than stopping; the fallback queue stays bounded at 10 with the oldest
entry evicted; an entry is appended exactly on a successful start (a
failed `playTrack` never appends); and the error path emits no `error`
command to the server. -/
theorem fallback_list_contract (s : AMState) (p url : String)
    (seekTo : Option ℚ) (fbPlayOk : Bool)
    (h : s.fallbackQueue.getLast? = some p) (hp : p ≠ "") :
    ((handleError fbPlayOk s).1.audio.src = some p) ∧
    ((handleError fbPlayOk s).1.fallbackQueue = s.fallbackQueue.dropLast) ∧
    ((handleError fbPlayOk s).2 = [AMEvent.onError "Audio load failed"]) ∧
    ((playTrack false fbPlayOk url seekTo s).audio.src = some p) ∧
    (∀ q u, List.length q ≤ 10 → (pushEvict q u).length ≤ 10) ∧
    (∀ q u, List.length q = 10 → pushEvict q u = q.drop 1 ++ [u]) ∧
    ((playTrack true fbPlayOk url seekTo s).fallbackQueue
        = pushEvict s.fallbackQueue url) ∧
    ((playTrack false fbPlayOk url seekTo s).fallbackQueue
        = s.fallbackQueue.dropLast) ∧
    (∀ ev fx, fx ∈ radioAudioEffects ev → fx.isSendOf "error" = false) := by
  refine ⟨?_, ?_, ?_, ?_, ?_, ?_, ?_, ?_, ?_⟩
  · simp [handleError, playFallback, h, hp]
  · simp [handleError, playFallback, h, hp]
  · rfl
  · cases seekTo <;> simp [playTrack, playFallback, h, hp]
  · intro q u hq
    simp only [pushEvict]
    split <;> rename_i hsp <;>
      simp only [List.length_drop, List.length_append,
        List.length_singleton] at hsp ⊢ <;>
      omega
  · intro q u hq
    have hlen : (q ++ [u]).length = 11 := by simp [hq]
    simp only [pushEvict]
    rw [if_pos (by omega)]
    exact List.drop_append_of_le_length (by omega)
  · cases seekTo <;> simp [playTrack]
  · cases seekTo <;> simp [playTrack, playFallback, h, hp]
  · intro ev fx hfx
    cases ev <;> simp [radioAudioEffects] at hfx <;>
      first
        | (subst hfx; rfl)
        | (rcases hfx with rfl | rfl <;> rfl)

/-- C2 witness: with fallback queue `["a.mp3", "b.mp3"]` an asset error
replays `"b.mp3"` (the most recent) and pops it, and a successful
`playTrack` of `"c.mp3"` appends it. -/
theorem fallback_list_contract_witness :
    (let s2 : AMState := { initialAMState with fallbackQueue := ["a.mp3", "b.mp3"] }
     (handleError true s2).1.audio.src = some "b.mp3" ∧
     (handleError true s2).1.fallbackQueue = ["a.mp3"] ∧
     (playTrack true true "c.mp3" none s2).fallbackQueue
        = ["a.mp3", "b.mp3", "c.mp3"]) := by
  have hc := fallback_list_contract
    { initialAMState with fallbackQueue := ["a.mp3", "b.mp3"] }
    "b.mp3" "c.mp3" none true rfl (by decide)
  refine ⟨hc.1, ?_, ?_⟩
  · rw [hc.2.1]
    rfl
  · rw [hc.2.2.2.2.2.2.1]
    rfl

/-- The fade loop's step `i`: volumes `(1 - i/20)·v` and `(i/20)·v`
assigned `i·25` ms after the fade starts. -/
theorem fadeSchedule_get? (v : ℚ) (i : ℕ) (hi : i < 21) :
    (fadeSchedule v).get? i =
      some ⟨(i : ℚ) * 25, (1 - (i : ℚ) / 20) * v, ((i : ℚ) / 20) * v⟩ := by
  unfold fadeSchedule crossfadeSteps CROSSFADE_MS
  rw [List.get?_map, List.get?_range hi]
  norm_num [FadeStep.mk.injEq]

/-- The schedule has 21 steps: `(fadeSchedule v).length = 21`. -/
theorem fadeSchedule_length (v : ℚ) : (fadeSchedule v).length = 21 := by
  unfold fadeSchedule
  rw [List.length_map, List.length_range]
  rfl

/-- C10: the crossfade volume schedule conserves total volume. For a
non-negative user volume `v`, each of the 21 fade steps assigns the
outgoing element `(1 - i/20)·v` and the incoming element `(i/20)·v`, so
the two always sum to `v`; the outgoing volume is non-increasing across
steps and the incoming non-decreasing; the final step sets the outgoing
volume to exactly `0` and the incoming to exactly `v`. -/
theorem crossfade_conserves_volume (v : ℚ) (hv : 0 ≤ v) :
    ((fadeSchedule v).length = 21) ∧
    (∀ i st, (fadeSchedule v).get? i = some st →
       st.oldVol = (1 - (i : ℚ) / 20) * v ∧
       st.newVol = ((i : ℚ) / 20) * v ∧
       st.oldVol + st.newVol = v) ∧
    (∀ i j sti stj, i ≤ j →
       (fadeSchedule v).get? i = some sti →
       (fadeSchedule v).get? j = some stj →
       stj.oldVol ≤ sti.oldVol ∧ sti.newVol ≤ stj.newVol) ∧
    (∀ st, (fadeSchedule v).getLast? = some st →
       st.oldVol = 0 ∧ st.newVol = v) := by
  have hget : ∀ i st, (fadeSchedule v).get? i = some st →
      i < 21 ∧ st = ⟨(i : ℚ) * 25, (1 - (i : ℚ) / 20) * v, ((i : ℚ) / 20) * v⟩ := by
    intro i st h
    have hi : i < 21 := by
      have := List.get?_eq_some.mp h
      simpa [fadeSchedule_length] using this.1
    refine ⟨hi, ?_⟩
    rw [fadeSchedule_get? v i hi] at h
    exact (Option.some_injective _ h).symm
  refine ⟨fadeSchedule_length v, ?_, ?_, ?_⟩
  · intro i st h
    obtain ⟨hi, rfl⟩ := hget i st h
    refine ⟨rfl, rfl, by ring⟩
  · intro i j sti stj hij hi hj
    obtain ⟨hi21, rfl⟩ := hget i sti hi
    obtain ⟨hj21, rfl⟩ := hget j stj hj
    have hc : (i : ℚ) / 20 ≤ (j : ℚ) / 20 := by
      have : (i : ℚ) ≤ (j : ℚ) := Nat.cast_le.mpr hij
      linarith
    constructor
    · exact mul_le_mul_of_nonneg_right (by linarith) hv
    · exact mul_le_mul_of_nonneg_right hc hv
  · intro st h
    rw [List.getLast?_eq_get?, fadeSchedule_length] at h
    obtain ⟨_, rfl⟩ := hget 20 st h
    norm_num

/-- C10 witness: the schedule at user volume `1/2` — step 10 splits the
volume `1/4`/`1/4`, and the last step ends at `0` and exactly `1/2`. -/
theorem crossfade_conserves_volume_witness :
    (∀ st, (fadeSchedule (1/2)).get? 10 = some st →
       st.oldVol + st.newVol = 1/2) ∧
    (∀ st, (fadeSchedule (1/2)).getLast? = some st →
       st.oldVol = 0 ∧ st.newVol = 1/2) := by
  have hc := crossfade_conserves_volume (1/2) (by norm_num)
  exact ⟨fun st h => ((hc.2.1 10 st h)).2.2, fun st h => hc.2.2.2 st h⟩

/-- C3: `crossfadeTo` hard-switches via `playTrack` exactly when the
incoming element's `play()` rejects; otherwise it fades over the fixed
`CROSSFADE_MS = 500` ms window (21 scheduled volume steps from 0 ms to
500 ms, not a hard cut). When the hard switch's own `play()` also fails,
it falls back to the most recent fallback-list entry. -/
theorem crossfade_or_hard_switch (nextPlayOk hardPlayOk fbPlayOk : Bool)
    (nextUrl : String) (nextDur : ℚ) (s : AMState) :
    ((crossfadeTo nextPlayOk hardPlayOk fbPlayOk nextUrl nextDur s).2
        = CrossfadeResult.hardSwitch ↔ nextPlayOk = false) ∧
    (nextPlayOk = false →
       (crossfadeTo nextPlayOk hardPlayOk fbPlayOk nextUrl nextDur s).1
         = playTrack hardPlayOk fbPlayOk nextUrl none s) ∧
    (nextPlayOk = false → hardPlayOk = false →
       ∀ p, s.fallbackQueue.getLast? = some p → p ≠ "" →
         (crossfadeTo nextPlayOk hardPlayOk fbPlayOk nextUrl nextDur s).1.audio.src
           = some p) ∧
    (nextPlayOk = true →
       (crossfadeTo nextPlayOk hardPlayOk fbPlayOk nextUrl nextDur s).2
           = CrossfadeResult.faded (fadeSchedule s.userVolume) ∧
       ((fadeSchedule s.userVolume).head?.map FadeStep.time = some 0) ∧
       ((fadeSchedule s.userVolume).getLast?.map FadeStep.time
           = some CROSSFADE_MS)) ∧
    CROSSFADE_MS = 500 := by
  refine ⟨?_, ?_, ?_, ?_, rfl⟩
  · cases nextPlayOk <;> simp [crossfadeTo]
  · rintro rfl
    simp [crossfadeTo]
  · rintro rfl rfl p hp hne
    simp [crossfadeTo, playTrack, playFallback, hp, hne]
  · rintro rfl
    refine ⟨by simp [crossfadeTo], ?_, ?_⟩
    · have h0 := fadeSchedule_get? s.userVolume 0 (by norm_num)
      rw [← List.get?_zero, h0]
      simp
    · rw [List.getLast?_eq_get?, fadeSchedule_length,
        fadeSchedule_get? s.userVolume 20 (by norm_num)]
      simp [CROSSFADE_MS]
      norm_num

/-- C3 witness: from a playing state, a succeeding incoming `play()`
fades (no hard switch) over exactly 500 ms; a rejected incoming `play()`
with a failing hard switch falls back to `"a.mp3"`. -/
theorem crossfade_or_hard_switch_witness :
    (let sp : AMState := { initialAMState with fallbackQueue := ["a.mp3"] }
     ((crossfadeTo true true true "n.mp3" 0 sp).2
         = CrossfadeResult.faded (fadeSchedule sp.userVolume)) ∧
     ((crossfadeTo false false true "n.mp3" 0 sp).2
         = CrossfadeResult.hardSwitch) ∧
     ((crossfadeTo false false true "n.mp3" 0 sp).1.audio.src
         = some "a.mp3")) := by
  refine ⟨?_, ?_, ?_⟩
  · exact ((crossfade_or_hard_switch true true true "n.mp3" 0
      { initialAMState with fallbackQueue := ["a.mp3"] }).2.2.2.1 rfl).1
  · exact (crossfade_or_hard_switch false false true "n.mp3" 0
      { initialAMState with fallbackQueue := ["a.mp3"] }).1.mpr rfl
  · exact (crossfade_or_hard_switch false false true "n.mp3" 0
      { initialAMState with fallbackQueue := ["a.mp3"] }).2.2.1 rfl rfl
      "a.mp3" rfl (by decide)

/-- C5: disconnection is tolerated by reconnecting and resyncing from a
snapshot. Any socket close not caused by an explicit `close()` schedules a
reconnect after the current delay and doubles the delay capped at 10 s; an
explicit `close()` suppresses reconnection; a successful open resets the
delay to 1 s and transmits nothing. A subsequent `sync` snapshot replaces
the radio name, first-run flag, now-playing track, volume and generating
flag wholesale and (once playback started, for a track with an asset url)
resumes playback at the snapshot's elapsed position; its handler emits no
command at all, so no missed events are requested or replayed. -/
theorem reconnect_resync_no_replay (rs : RSState) (hcl : rs.closed = false)
    (rn : String) (fr : Bool) (np : NowPlayingT) (e vol : ℚ) (g : Bool)
    (now : ℕ) (am : AMState) (r : RadioRefs) (s : RadioState)
    (hst : r.started = true) (hurl : np.audio_url ≠ "") :
    (handleWsClose rs =
       ({ rs with reconnectDelay := min (rs.reconnectDelay * 2) 10000 },
        [.cbOnClose, .scheduleReconnect rs.reconnectDelay])) ∧
    (∀ rs' : RSState, rs'.closed = true →
       (handleWsClose rs').2 = [SocketEffect.cbOnClose]) ∧
    (handleWsOpen rs = ({ rs with reconnectDelay := 1000 }, [.cbOnOpen])) ∧
    ((handleMessage (.sync rn fr (some np) (some ⟨some e, some vol⟩) g)
        now am r s).1.radioName = rn) ∧
    ((handleMessage (.sync rn fr (some np) (some ⟨some e, some vol⟩) g)
        now am r s).1.isFirstRun = fr) ∧
    ((handleMessage (.sync rn fr (some np) (some ⟨some e, some vol⟩) g)
        now am r s).1.nowPlaying = some np) ∧
    ((handleMessage (.sync rn fr (some np) (some ⟨some e, some vol⟩) g)
        now am r s).1.volume = vol) ∧
    ((handleMessage (.sync rn fr (some np) (some ⟨some e, some vol⟩) g)
        now am r s).1.generating = g) ∧
    ((handleMessage (.sync rn fr (some np) (some ⟨some e, some vol⟩) g)
        now am r s).2.2 = [HandlerEffect.audioPlayTrack np.audio_url e]) ∧
    (∀ fx ∈ (handleMessage (.sync rn fr (some np) (some ⟨some e, some vol⟩) g)
        now am r s).2.2, ∀ t, fx.isSendOf t = false) := by
  refine ⟨?_, ?_, rfl, ?_, ?_, ?_, ?_, ?_, ?_, ?_⟩
  · simp [handleWsClose, hcl, rsMaxDelay]
  · intro rs' h
    simp [handleWsClose, h]
  · rfl
  · rfl
  · rfl
  · simp [handleMessage, pbElapsed]
  · rfl
  · simp [handleMessage, pbElapsed, hst, hurl]
  · intro fx hfx t
    simp [handleMessage, pbElapsed, hst, hurl] at hfx
    subst hfx
    rfl

/-- C5 witness: a non-`closed` socket at delay 4000 ms reschedules at
4000 ms and doubles to 8000 ms, and a concrete `sync` snapshot resumes
`"t.mp3"` at 12.5 s with the snapshot's fields installed. -/
theorem reconnect_resync_no_replay_witness :
    (handleWsClose ⟨some ⟨WsReady.CLOSED⟩, 4000, false⟩ =
       (⟨some ⟨WsReady.CLOSED⟩, 8000, false⟩,
        [.cbOnClose, .scheduleReconnect 4000])) ∧
    ((handleMessage
        (.sync "jazz" false (some ⟨"id1", "jazz", none, none, none, true, "",
            "t.mp3", none, "jazz", none⟩) (some ⟨some (25/2), some 55⟩) false)
        7 initialAMState { initialRefs with started := true }
        initialRadioState).1.volume = 55) ∧
    ((handleMessage
        (.sync "jazz" false (some ⟨"id1", "jazz", none, none, none, true, "",
            "t.mp3", none, "jazz", none⟩) (some ⟨some (25/2), some 55⟩) false)
        7 initialAMState { initialRefs with started := true }
        initialRadioState).2.2 =
      [HandlerEffect.audioPlayTrack "t.mp3" (25/2)]) := by
  have hc := reconnect_resync_no_replay ⟨some ⟨WsReady.CLOSED⟩, 4000, false⟩
    rfl "jazz" false ⟨"id1", "jazz", none, none, none, true, "", "t.mp3",
      none, "jazz", none⟩ (25/2) 55 false 7 initialAMState
    { initialRefs with started := true } initialRadioState rfl (by decide)
  exact ⟨hc.1, hc.2.2.2.2.2.2.1, hc.2.2.2.2.2.2.2.2.1⟩

end Meltfm
